import Mathlib

/-!
Verification of the 4x4 transform library in src/code/GLprimer.cpp.

The C++ code stores a matrix as std::array<float, 16> in column-major
order (element at linear index col*4+row).  We embed it as a structure
with sixteen real-valued fields e0 .. e15, one per linear index, and
translate each matrix routine element by element from the source.
Floating-point arithmetic is idealised as real arithmetic.
-/

open Real

/-- Column-major 4x4 matrix: field ei is the element at linear index i
of the std::array<float, 16> in the source, i.e. the element at
column i / 4, row i % 4. -/
@[ext]
structure Matrix4x4 where
  e0 : ℝ
  e1 : ℝ
  e2 : ℝ
  e3 : ℝ
  e4 : ℝ
  e5 : ℝ
  e6 : ℝ
  e7 : ℝ
  e8 : ℝ
  e9 : ℝ
  e10 : ℝ
  e11 : ℝ
  e12 : ℝ
  e13 : ℝ
  e14 : ℝ
  e15 : ℝ

/-- Element at linear index i (column-major: i = col*4 + row). -/
def Matrix4x4.get (m : Matrix4x4) : Fin 16 → ℝ
  | 0 => m.e0
  | 1 => m.e1
  | 2 => m.e2
  | 3 => m.e3
  | 4 => m.e4
  | 5 => m.e5
  | 6 => m.e6
  | 7 => m.e7
  | 8 => m.e8
  | 9 => m.e9
  | 10 => m.e10
  | 11 => m.e11
  | 12 => m.e12
  | 13 => m.e13
  | 14 => m.e14
  | 15 => m.e15
  | ⟨n + 16, h⟩ => absurd h (by omega)

/-- Linear index of column c, row r under column-major storage. -/
def idx (c r : Fin 4) : Fin 16 :=
  ⟨c.val * 4 + r.val, by omega⟩

/-- Translation of mat4mult (GLprimer.cpp lines 74-99): each of the 16
elements of the result is the sum of four products, copied verbatim. -/
def mat4mult (m1 m2 : Matrix4x4) : Matrix4x4 where
  e0 := m1.e0 * m2.e0 + m1.e4 * m2.e1 + m1.e8 * m2.e2 + m1.e12 * m2.e3
  e1 := m1.e1 * m2.e0 + m1.e5 * m2.e1 + m1.e9 * m2.e2 + m1.e13 * m2.e3
  e2 := m1.e2 * m2.e0 + m1.e6 * m2.e1 + m1.e10 * m2.e2 + m1.e14 * m2.e3
  e3 := m1.e3 * m2.e0 + m1.e7 * m2.e1 + m1.e11 * m2.e2 + m1.e15 * m2.e3
  e4 := m1.e0 * m2.e4 + m1.e4 * m2.e5 + m1.e8 * m2.e6 + m1.e12 * m2.e7
  e5 := m1.e1 * m2.e4 + m1.e5 * m2.e5 + m1.e9 * m2.e6 + m1.e13 * m2.e7
  e6 := m1.e2 * m2.e4 + m1.e6 * m2.e5 + m1.e10 * m2.e6 + m1.e14 * m2.e7
  e7 := m1.e3 * m2.e4 + m1.e7 * m2.e5 + m1.e11 * m2.e6 + m1.e15 * m2.e7
  e8 := m1.e0 * m2.e8 + m1.e4 * m2.e9 + m1.e8 * m2.e10 + m1.e12 * m2.e11
  e9 := m1.e1 * m2.e8 + m1.e5 * m2.e9 + m1.e9 * m2.e10 + m1.e13 * m2.e11
  e10 := m1.e2 * m2.e8 + m1.e6 * m2.e9 + m1.e10 * m2.e10 + m1.e14 * m2.e11
  e11 := m1.e3 * m2.e8 + m1.e7 * m2.e9 + m1.e11 * m2.e10 + m1.e15 * m2.e11
  e12 := m1.e0 * m2.e12 + m1.e4 * m2.e13 + m1.e8 * m2.e14 + m1.e12 * m2.e15
  e13 := m1.e1 * m2.e12 + m1.e5 * m2.e13 + m1.e9 * m2.e14 + m1.e13 * m2.e15
  e14 := m1.e2 * m2.e12 + m1.e6 * m2.e13 + m1.e10 * m2.e14 + m1.e14 * m2.e15
  e15 := m1.e3 * m2.e12 + m1.e7 * m2.e13 + m1.e11 * m2.e14 + m1.e15 * m2.e15

/-- Translation of mat4identity (GLprimer.cpp lines 100-123). -/
def mat4identity : Matrix4x4 :=
  ⟨1, 0, 0, 0, 0, 1, 0, 0, 0, 0, 1, 0, 0, 0, 0, 1⟩

/-- Translation of mat4rotx (GLprimer.cpp lines 124-147). -/
noncomputable def mat4rotx (angle : ℝ) : Matrix4x4 :=
  ⟨1, 0, 0, 0,
   0, Real.cos angle, Real.sin angle, 0,
   0, -Real.sin angle, Real.cos angle, 0,
   0, 0, 0, 1⟩

/-- Translation of mat4roty (GLprimer.cpp lines 148-171). -/
noncomputable def mat4roty (angle : ℝ) : Matrix4x4 :=
  ⟨Real.cos angle, 0, -Real.sin angle, 0,
   0, 1, 0, 0,
   Real.sin angle, 0, Real.cos angle, 0,
   0, 0, 0, 1⟩

/-- Translation of mat4rotz (GLprimer.cpp lines 172-195). -/
noncomputable def mat4rotz (angle : ℝ) : Matrix4x4 :=
  ⟨Real.cos angle, Real.sin angle, 0, 0,
   -Real.sin angle, Real.cos angle, 0, 0,
   0, 0, 1, 0,
   0, 0, 0, 1⟩

/-- Translation of mat4scale (GLprimer.cpp lines 196-219). -/
def mat4scale (scale : ℝ) : Matrix4x4 :=
  ⟨scale, 0, 0, 0,
   0, scale, 0, 0,
   0, 0, scale, 0,
   0, 0, 0, 1⟩

/-- Translation of mat4translate (GLprimer.cpp lines 220-243). -/
def mat4translate (x y z : ℝ) : Matrix4x4 :=
  ⟨1, 0, 0, 0,
   0, 1, 0, 0,
   0, 0, 1, 0,
   x, y, z, 1⟩

/-- Translation of mat4perspective (GLprimer.cpp lines 244-271), with
f = 1 / tan(vfov / 2) as in the source. -/
noncomputable def mat4perspective (vfov aspect znear zfar : ℝ) : Matrix4x4 :=
  let f : ℝ := 1 / Real.tan (vfov / 2)
  ⟨f / aspect, 0, 0, 0,
   0, f, 0, 0,
   0, 0, -(zfar + znear) / (zfar - znear), -1,
   0, 0, -(2 * zfar * znear) / (zfar - znear), 0⟩

/-- Homogeneous 4-component vector (x, y, z, w). -/
structure Vec4 where
  x : ℝ
  y : ℝ
  z : ℝ
  w : ℝ

/-- Modelled from the spec: the repository itself applies matrices to
vertices in the vertex shader (gl_Position = P * MV * vec4(Position, 1.0));
this is the standard column-vector product v2 = M * v under the
column-major storage of section 4.1 of the spec. -/
def mat4apply (m : Matrix4x4) (v : Vec4) : Vec4 where
  x := m.e0 * v.x + m.e4 * v.y + m.e8 * v.z + m.e12 * v.w
  y := m.e1 * v.x + m.e5 * v.y + m.e9 * v.z + m.e13 * v.w
  z := m.e2 * v.x + m.e6 * v.y + m.e10 * v.z + m.e14 * v.w
  w := m.e3 * v.x + m.e7 * v.y + m.e11 * v.z + m.e15 * v.w

/-- Modelled from the spec: the failure-semantics sections say the code
performs no validation and its only partial arithmetic is the division
by (zfar - znear); this checked variant makes that division explicit,
refusing exactly the degenerate case znear = zfar. -/
noncomputable def mat4perspectiveChecked (vfov aspect znear zfar : ℝ) :
    Option Matrix4x4 :=
  if zfar - znear = 0 then none
  else some (mat4perspective vfov aspect znear zfar)

/-- Bottom (homogeneous) row of a column-major matrix, the elements at
linear indices 3, 7, 11, 15, equals (0, 0, 0, 1). -/
def bottomRowAffine (m : Matrix4x4) : Prop :=
  m.e3 = 0 ∧ m.e7 = 0 ∧ m.e11 = 0 ∧ m.e15 = 1

/-- C1: for all matrices a, b and all columns c and rows r in 0..3,
mat4mult returns the standard column-major matrix product: the element
at linear index c*4+r of the result is the sum over k of
a[k*4+r] * b[c*4+k]. -/
theorem mat4mult_is_standard_product (a b : Matrix4x4) (c r : Fin 4) :
    (mat4mult a b).get (idx c r) =
      ∑ k : Fin 4, a.get (idx k r) * b.get (idx c k) := by
  fin_cases c <;> fin_cases r <;> simp only [Fin.sum_univ_four] <;> rfl

/-- C4: mat4identity is a two-sided multiplicative identity for
mat4mult: multiplying on either side returns the other operand
exactly. -/
theorem mat4identity_mult_identity (M : Matrix4x4) :
    mat4mult mat4identity M = M ∧ mat4mult M mat4identity = M := by
  constructor <;> ext <;> simp [mat4mult, mat4identity]

/-- C10: every constructor except mat4perspective produces a matrix
whose bottom row (linear indices 3, 7, 11, 15) is (0, 0, 0, 1), and
mat4mult preserves that invariant. -/
theorem bottomRowAffine_invariant :
    bottomRowAffine mat4identity ∧
    (∀ angle, bottomRowAffine (mat4rotx angle)) ∧
    (∀ angle, bottomRowAffine (mat4roty angle)) ∧
    (∀ angle, bottomRowAffine (mat4rotz angle)) ∧
    (∀ s, bottomRowAffine (mat4scale s)) ∧
    (∀ x y z, bottomRowAffine (mat4translate x y z)) ∧
    (∀ m1 m2, bottomRowAffine m1 → bottomRowAffine m2 →
      bottomRowAffine (mat4mult m1 m2)) := by
  refine ⟨⟨rfl, rfl, rfl, rfl⟩,
    fun _ => ⟨rfl, rfl, rfl, rfl⟩,
    fun _ => ⟨rfl, rfl, rfl, rfl⟩,
    fun _ => ⟨rfl, rfl, rfl, rfl⟩,
    fun _ => ⟨rfl, rfl, rfl, rfl⟩,
    fun _ _ _ => ⟨rfl, rfl, rfl, rfl⟩,
    fun m1 m2 h1 h2 => ?_⟩
  obtain ⟨a3, a7, a11, a15⟩ := h1
  obtain ⟨b3, b7, b11, b15⟩ := h2
  exact ⟨by simp [mat4mult, a3, a7, a11, a15, b3],
         by simp [mat4mult, a3, a7, a11, a15, b7],
         by simp [mat4mult, a3, a7, a11, a15, b11],
         by simp [mat4mult, a3, a7, a11, a15, b15]⟩

/-- C10 witness: instantiating the invariant at two concrete matrices
with affine bottom rows. -/
theorem bottomRowAffine_invariant_witness :
    bottomRowAffine (mat4mult mat4identity (mat4translate 2 3 4)) :=
  bottomRowAffine_invariant.2.2.2.2.2.2 mat4identity (mat4translate 2 3 4)
    ⟨rfl, rfl, rfl, rfl⟩ ⟨rfl, rfl, rfl, rfl⟩

/-- C7: mat4translate has identity linear part, homogeneous bottom row
(0, 0, 0, 1), the translation (x, y, z) at linear indices 12, 13, 14,
and maps the homogeneous origin (0, 0, 0, 1) to (x, y, z, 1). -/
theorem mat4translate_spec (x y z : ℝ) :
    ((mat4translate x y z).e12 = x ∧ (mat4translate x y z).e13 = y ∧
      (mat4translate x y z).e14 = z) ∧
    ((mat4translate x y z).e0 = 1 ∧ (mat4translate x y z).e1 = 0 ∧
      (mat4translate x y z).e2 = 0 ∧ (mat4translate x y z).e4 = 0 ∧
      (mat4translate x y z).e5 = 1 ∧ (mat4translate x y z).e6 = 0 ∧
      (mat4translate x y z).e8 = 0 ∧ (mat4translate x y z).e9 = 0 ∧
      (mat4translate x y z).e10 = 1) ∧
    ((mat4translate x y z).e3 = 0 ∧ (mat4translate x y z).e7 = 0 ∧
      (mat4translate x y z).e11 = 0 ∧ (mat4translate x y z).e15 = 1) ∧
    mat4apply (mat4translate x y z) ⟨0, 0, 0, 1⟩ = ⟨x, y, z, 1⟩ := by
  refine ⟨⟨rfl, rfl, rfl⟩, ⟨rfl, rfl, rfl, rfl, rfl, rfl, rfl, rfl, rfl⟩,
    ⟨rfl, rfl, rfl, rfl⟩, ?_⟩
  simp [mat4apply, mat4translate]

/-- C8: mat4scale scales x, y, z uniformly by s, leaves the
translation column and homogeneous row equal to those of the identity,
and maps (1, 1, 1, 1) to (s, s, s, 1). -/
theorem mat4scale_spec (s : ℝ) :
    ((mat4scale s).e0 = s ∧ (mat4scale s).e5 = s ∧ (mat4scale s).e10 = s) ∧
    ((mat4scale s).e12 = mat4identity.e12 ∧
      (mat4scale s).e13 = mat4identity.e13 ∧
      (mat4scale s).e14 = mat4identity.e14 ∧
      (mat4scale s).e15 = mat4identity.e15) ∧
    ((mat4scale s).e3 = mat4identity.e3 ∧ (mat4scale s).e7 = mat4identity.e7 ∧
      (mat4scale s).e11 = mat4identity.e11) ∧
    mat4apply (mat4scale s) ⟨1, 1, 1, 1⟩ = ⟨s, s, s, 1⟩ := by
  refine ⟨⟨rfl, rfl, rfl⟩, ⟨rfl, rfl, rfl, rfl⟩, ⟨rfl, rfl, rfl⟩, ?_⟩
  simp [mat4apply, mat4scale]

/-- C5: composing mat4rotz at an angle with mat4rotz at the negated
angle under mat4mult yields mat4identity, exactly over the reals. -/
theorem mat4rotz_neg_inverse (θ : ℝ) :
    mat4mult (mat4rotz θ) (mat4rotz (-θ)) = mat4identity := by
  ext <;> simp [mat4mult, mat4rotz, mat4identity, Real.cos_neg, Real.sin_neg] <;>
    nlinarith [Real.sin_sq_add_cos_sq θ]

/-- C6: mat4rotx at angle pi/2 maps the homogeneous point (0, 1, 0, 1)
to (0, 0, 1, 1) (right-hand rule about the x axis), and for every
angle the entries outside the upper-left 3x3 block match
mat4identity. -/
theorem mat4rotx_spec :
    mat4apply (mat4rotx (π / 2)) ⟨0, 1, 0, 1⟩ = ⟨0, 0, 1, 1⟩ ∧
    (∀ angle,
      (mat4rotx angle).e3 = mat4identity.e3 ∧
      (mat4rotx angle).e7 = mat4identity.e7 ∧
      (mat4rotx angle).e11 = mat4identity.e11 ∧
      (mat4rotx angle).e12 = mat4identity.e12 ∧
      (mat4rotx angle).e13 = mat4identity.e13 ∧
      (mat4rotx angle).e14 = mat4identity.e14 ∧
      (mat4rotx angle).e15 = mat4identity.e15) := by
  refine ⟨?_, fun angle => ⟨rfl, rfl, rfl, rfl, rfl, rfl, rfl⟩⟩
  simp [mat4apply, mat4rotx, Real.cos_pi_div_two, Real.sin_pi_div_two]

/-- C3: mat4perspective at fov pi/2, aspect 1, near 0.1, far 100 has
-1 at linear index 11 (column 2, row 3), -(far+near)/(far-near) at
linear index 10 (column 2, row 2), f/aspect at index 0 and f at
index 5, where f = 1/tan(fov/2). -/
theorem mat4perspective_concrete :
    (mat4perspective (π / 2) 1 0.1 100).e11 = -1 ∧
    (mat4perspective (π / 2) 1 0.1 100).e10 = -(100 + 0.1) / (100 - 0.1) ∧
    (mat4perspective (π / 2) 1 0.1 100).e0 = (1 / Real.tan (π / 2 / 2)) / 1 ∧
    (mat4perspective (π / 2) 1 0.1 100).e5 = 1 / Real.tan (π / 2 / 2) :=
  ⟨rfl, rfl, rfl, rfl⟩

/-- C9: the transform library has no error path; its only partial
arithmetic is the division by (zfar - znear) in mat4perspective, and
the explicit checked variant refuses an input exactly when
znear = zfar, so under the precondition znear distinct from zfar it
always produces the unchecked matrix. -/
theorem mat4perspective_no_error_path (vfov aspect znear zfar : ℝ) :
    (mat4perspectiveChecked vfov aspect znear zfar = none ↔ znear = zfar) ∧
    (znear ≠ zfar →
      mat4perspectiveChecked vfov aspect znear zfar =
        some (mat4perspective vfov aspect znear zfar)) := by
  constructor
  · unfold mat4perspectiveChecked
    rcases eq_or_ne znear zfar with h | h
    · simp [h]
    · rw [if_neg (sub_ne_zero.mpr (Ne.symm h))]
      simp [h]
  · intro h
    unfold mat4perspectiveChecked
    rw [if_neg (sub_ne_zero.mpr (Ne.symm h))]

/-- C9 witness: at fov 0, aspect 1, near 1, far 2 the checked variant
returns the unchecked matrix. -/
theorem mat4perspective_no_error_path_witness :
    mat4perspectiveChecked 0 1 1 2 = some (mat4perspective 0 1 1 2) :=
  (mat4perspective_no_error_path 0 1 1 2).2 (by norm_num)

/-- C2 counterexample: with near 1, far 3, the view-space point at
z = -1 (the nearer point) receives post-divide depth -1 while the
point at z = -3 (the farther point) receives depth 1, so the nearer
point does NOT receive the greater depth value. -/
theorem mat4perspective_invertedZ_false :
    ¬ ((mat4apply (mat4perspective 0 1 1 3) ⟨0, 0, -1, 1⟩).z /
         (mat4apply (mat4perspective 0 1 1 3) ⟨0, 0, -1, 1⟩).w >
       (mat4apply (mat4perspective 0 1 1 3) ⟨0, 0, -3, 1⟩).z /
         (mat4apply (mat4perspective 0 1 1 3) ⟨0, 0, -3, 1⟩).w) := by
  simp only [mat4apply, mat4perspective]
  norm_num

/-- C2 (amended): for positive near < far, mat4perspective produces
clip-space w equal to -z for every view-space point, and depth after
the perspective divide is strictly DECREASING toward the viewer: of
two points with z in [-far, -near], the nearer one (larger z) gets
the strictly smaller post-divide depth. -/
theorem mat4perspective_depth_order
    (vfov aspect znear zfar x1 y1 z1 x2 y2 z2 : ℝ)
    (hn : 0 < znear) (hnf : znear < zfar)
    (h1l : -zfar ≤ z1) (h1r : z1 ≤ -znear)
    (h2l : -zfar ≤ z2) (h2r : z2 ≤ -znear)
    (hz : z2 < z1) :
    (∀ x y z : ℝ,
      (mat4apply (mat4perspective vfov aspect znear zfar) ⟨x, y, z, 1⟩).w = -z) ∧
    (mat4apply (mat4perspective vfov aspect znear zfar) ⟨x1, y1, z1, 1⟩).z /
        (mat4apply (mat4perspective vfov aspect znear zfar) ⟨x1, y1, z1, 1⟩).w <
      (mat4apply (mat4perspective vfov aspect znear zfar) ⟨x2, y2, z2, 1⟩).z /
        (mat4apply (mat4perspective vfov aspect znear zfar) ⟨x2, y2, z2, 1⟩).w := by
  have hD : (0:ℝ) < zfar - znear := by linarith
  have hw1 : (0:ℝ) < -z1 := by linarith
  have hw2 : (0:ℝ) < -z2 := by linarith
  have hf : (0:ℝ) < zfar := lt_trans hn hnf
  constructor
  · intro x y z
    simp only [mat4apply, mat4perspective]
    ring
  · have hzc1 : (mat4apply (mat4perspective vfov aspect znear zfar) ⟨x1, y1, z1, 1⟩).z
        = (-(zfar + znear) * z1 - 2 * zfar * znear) / (zfar - znear) := by
      simp only [mat4apply, mat4perspective]
      ring
    have hzc2 : (mat4apply (mat4perspective vfov aspect znear zfar) ⟨x2, y2, z2, 1⟩).z
        = (-(zfar + znear) * z2 - 2 * zfar * znear) / (zfar - znear) := by
      simp only [mat4apply, mat4perspective]
      ring
    have hwc1 : (mat4apply (mat4perspective vfov aspect znear zfar) ⟨x1, y1, z1, 1⟩).w
        = -z1 := by
      simp only [mat4apply, mat4perspective]
      ring
    have hwc2 : (mat4apply (mat4perspective vfov aspect znear zfar) ⟨x2, y2, z2, 1⟩).w
        = -z2 := by
      simp only [mat4apply, mat4perspective]
      ring
    rw [hzc1, hzc2, hwc1, hwc2, div_lt_div_iff hw1 hw2,
      div_mul_eq_mul_div, div_mul_eq_mul_div, div_lt_div_iff hD hD]
    nlinarith [mul_pos (mul_pos hD (mul_pos (mul_pos two_pos hf) hn))
      (sub_pos.mpr hz)]

/-- C2 witness: the amended depth theorem at near 1, far 3, with the
points z = -1 and z = -3. -/
theorem mat4perspective_depth_order_witness :
    (0:ℝ) < 1 ∧ (1:ℝ) < 3 ∧
    ((∀ x y z : ℝ,
      (mat4apply (mat4perspective 0 1 1 3) ⟨x, y, z, 1⟩).w = -z) ∧
    (mat4apply (mat4perspective 0 1 1 3) ⟨0, 0, -1, 1⟩).z /
        (mat4apply (mat4perspective 0 1 1 3) ⟨0, 0, -1, 1⟩).w <
      (mat4apply (mat4perspective 0 1 1 3) ⟨0, 0, -3, 1⟩).z /
        (mat4apply (mat4perspective 0 1 1 3) ⟨0, 0, -3, 1⟩).w) :=
  ⟨by norm_num, by norm_num,
   mat4perspective_depth_order 0 1 1 3 0 0 (-1) 0 0 (-3)
     (by norm_num) (by norm_num) (by norm_num) (by norm_num)
     (by norm_num) (by norm_num) (by norm_num)⟩
